import Mathlib

/-
Verification of the natural-language specification of the
aws-cloudformation-customresources repository against a shallow embedding
of its two Lambda handlers:

  * src/botohook/lambda_function.py   — the "Action Bridge": parameter type
    coercion (handle_param_typing), response flattening, physical-identity
    extraction and the request-handling state machine
    (handle_custom_resource_request);
  * src/transform/lambda_function.py  — the "Resource-Type Rewriter"
    (replace_fragment_resources).

Python values (the JSON-shaped documents both handlers traverse) are
modelled by the mutual inductive family `Value` / `ValueList` / `EntryList`
below; Python dicts become insertion-ordered association lists, which is
faithful to CPython 3.7+ dict semantics.  Fallible Python code (code that
can raise) is modelled in `Except String`, the error string standing for
the raised exception's rendering.
-/

namespace CfnBridge

/-- Python float values: finite floats (modelled as exact rationals — CPython
uses IEEE doubles, i.e. binary rationals; none of the verified claims depend
on rounding), signed infinities, and NaN. -/
inductive PyFloat where
  | finite (q : ℚ)
  | infinite (neg : Bool)
  | nan
deriving DecidableEq

mutual
/-- A Python/JSON-shaped value as handled by both Lambda functions: `None`,
booleans, ints, floats, strings, `datetime`/`date` objects (only their
broken-down calendar fields matter to the code, via `strftime`), lists, and
insertion-ordered dicts with string keys. -/
inductive Value where
  | null
  | bool (b : Bool)
  | int (n : Int)
  | float (f : PyFloat)
  | str (s : String)
  | datetime (year month day hour minute second : Nat)
  | list (xs : ValueList)
  | dict (kvs : EntryList)

/-- A list of Python values. -/
inductive ValueList where
  | nil
  | cons (v : Value) (rest : ValueList)

/-- An insertion-ordered Python dict with string keys. -/
inductive EntryList where
  | nil
  | cons (k : String) (v : Value) (rest : EntryList)
end

mutual
/-- Structural equality of values (Python `==` on JSON-shaped data). -/
def beqValue : Value → Value → Bool
  | .null, .null => true
  | .bool a, .bool b => a == b
  | .int a, .int b => a == b
  | .float a, .float b => a == b
  | .str a, .str b => a == b
  | .datetime a b c d e f, .datetime a' b' c' d' e' f' =>
      a == a' && b == b' && c == c' && d == d' && e == e' && f == f'
  | .list xs, .list ys => beqValueList xs ys
  | .dict a, .dict b => beqEntryList a b
  | _, _ => false

/-- Elementwise equality of value lists. -/
def beqValueList : ValueList → ValueList → Bool
  | .nil, .nil => true
  | .cons v r, .cons v' r' => beqValue v v' && beqValueList r r'
  | _, _ => false

/-- Entrywise equality of dict entry lists. -/
def beqEntryList : EntryList → EntryList → Bool
  | .nil, .nil => true
  | .cons k v r, .cons k' v' r' => k == k' && beqValue v v' && beqEntryList r r'
  | _, _ => false
end

instance : BEq Value := ⟨beqValue⟩

/-- First-occurrence lookup in a dict (`d[key]` / `d.get(key)` on a Python
dict; keys are unique in genuine Python dicts, so first occurrence is the
occurrence). -/
def lookupKey : EntryList → String → Option Value
  | .nil, _ => none
  | .cons k v rest, key => if k == key then some v else lookupKey rest key

/-- Python `key in d` on a dict. -/
def containsKey (kvs : EntryList) (key : String) : Bool :=
  (lookupKey kvs key).isSome

/-- Last-occurrence lookup; on duplicate-free entry lists (every genuine
Python dict) it agrees with `lookupKey`, and it is what a left-to-right
`dict` build (`{**a, **b}` spreading) ends up storing. -/
def lookupLastEntry : EntryList → String → Option Value
  | .nil, _ => none
  | .cons k v rest, key =>
      match lookupLastEntry rest key with
      | some r => some r
      | none => if k == key then some v else none

/-- Python `d[key] = v` on an insertion-ordered dict: overwrite the value in
place if the key is present, append otherwise. -/
def pyDictSet : EntryList → String → Value → EntryList
  | .nil, key, v => .cons key v .nil
  | .cons k x rest, key, v =>
      if k == key then .cons k v rest else .cons k x (pyDictSet rest key v)

/-- Python `{**base, **src}`: fold the entries of `src` into `base` in order,
each one by `pyDictSet`. -/
def pySpreadInto : EntryList → EntryList → EntryList
  | base, .nil => base
  | base, .cons k v rest => pySpreadInto (pyDictSet base k v) rest

/-- Python subscript `value[key]` with a string key: dict lookup (KeyError if
missing), TypeError on every non-dict value. -/
def pyDictGet (v : Value) (key : String) : Except String Value :=
  match v with
  | .dict kvs =>
      match lookupKey kvs key with
      | some x => .ok x
      | none => .error ("KeyError: " ++ key)
  | _ => .error "TypeError: value is not subscriptable by a string key"

/-- Emptiness of a value list. -/
def valueListIsEmpty : ValueList → Bool
  | .nil => true
  | .cons _ _ => false

/-- Emptiness of an entry list. -/
def entryListIsEmpty : EntryList → Bool
  | .nil => true
  | .cons _ _ _ => false

/-- Python truthiness of a value (`bool(x)`): `None`, `False`, zero, empty
string, empty list, empty dict are falsy; NaN and infinities are truthy;
`datetime` objects are truthy. -/
def pyTruthy : Value → Bool
  | .null => false
  | .bool b => b
  | .int n => n != 0
  | .float f =>
      match f with
      | .finite q => q != 0
      | _ => true
  | .str s => s != ""
  | .datetime .. => true
  | .list xs => !(valueListIsEmpty xs)
  | .dict kvs => !(entryListIsEmpty kvs)

/-- ASCII lowercasing, modelling Python `str.lower` (which is Unicode-aware;
the two agree on all inputs relevant here, and in particular no non-ASCII
character lowercases to the ASCII letters of "true" or to "1"). -/
def pyLower (s : String) : String :=
  ⟨s.toList.map Char.toLower⟩

/-- Strip leading and trailing whitespace, modelling the whitespace
tolerance of Python `int()` / `float()` on strings. -/
def pyStrStrip (s : String) : String :=
  ⟨((s.toList.dropWhile Char.isWhitespace).reverse.dropWhile Char.isWhitespace).reverse⟩

/-- Numeric value of an ASCII digit character. -/
def digitVal (c : Char) : Nat := c.toNat - 48

/-- After a first digit, Python numeric literals allow further digits with
single underscores strictly between digits. Returns the digits read. -/
def parseDigitsRest : List Char → Option (List Nat)
  | [] => some []
  | '_' :: c :: rest =>
      if c.isDigit then (parseDigitsRest rest).map (fun ds => digitVal c :: ds) else none
  | ['_'] => none
  | c :: rest =>
      if c.isDigit then (parseDigitsRest rest).map (fun ds => digitVal c :: ds) else none

/-- A nonempty run of decimal digits with optional single underscores
between digits (the digit-group grammar of Python `int()` / `float()`). -/
def parseUDigits : List Char → Option (List Nat)
  | [] => none
  | c :: rest =>
      if c.isDigit then (parseDigitsRest rest).map (fun ds => digitVal c :: ds) else none

/-- A possibly-empty digit group (used for the integer and fractional parts
around a decimal point, each of which may be empty but not both). -/
def parseUDigitsOpt : List Char → Option (List Nat)
  | [] => some []
  | cs => parseUDigits cs

/-- Decimal value of a digit list. -/
def natOfDigits (ds : List Nat) : Nat :=
  ds.foldl (fun a d => 10 * a + d) 0

/-- An optional leading sign; returns (isNegative, remainder). -/
def parseSign : List Char → (Bool × List Char)
  | '-' :: rest => (true, rest)
  | '+' :: rest => (false, rest)
  | cs => (false, cs)

/-- Python `int(s)` for a string argument: optional surrounding whitespace,
optional sign, then a nonempty digit group. (Python also accepts non-ASCII
decimal digits; the code under verification only ever sees ASCII.) -/
def pyIntParse (s : String) : Option Int :=
  let cs := (pyStrStrip s).toList
  let sc := parseSign cs
  (parseUDigits sc.2).map
    (fun ds => if sc.1 then -(natOfDigits ds : Int) else (natOfDigits ds : Int))

/-- Split at the first exponent marker `e`/`E`, if any. -/
def splitOnExpChar : List Char → (List Char × Option (List Char))
  | [] => ([], none)
  | c :: rest =>
      if c == 'e' || c == 'E' then ([], some rest)
      else
        let r := splitOnExpChar rest
        (c :: r.1, r.2)

/-- Split at the first decimal point, if any. -/
def splitOnDot : List Char → (List Char × Option (List Char))
  | [] => ([], none)
  | c :: rest =>
      if c == '.' then ([], some rest)
      else
        let r := splitOnDot rest
        (c :: r.1, r.2)

/-- `10 ^ e` over ℚ for an integer exponent, avoiding typeclass `zpow`. -/
def pow10Z (e : Int) : ℚ :=
  if 0 ≤ e then ((10 : ℚ) ^ e.toNat) else ((10 : ℚ) ^ (-e).toNat)⁻¹

/-- Assemble a finite float from sign, integer-part digits, fractional-part
digits and an optional exponent character group. -/
def mkFloatVal (neg : Bool) (ids fds : List Nat) (expPart : Option (List Char)) :
    Option PyFloat :=
  match expPart with
  | none =>
      let m : ℚ := (natOfDigits (ids ++ fds) : ℚ)
      let q : ℚ := m * pow10Z (0 - (fds.length : Int))
      some (.finite (if neg then -q else q))
  | some ecs =>
      let esc := parseSign ecs
      match parseUDigits esc.2 with
      | none => none
      | some eds =>
          let e : Int := if esc.1 then -(natOfDigits eds : Int) else (natOfDigits eds : Int)
          let m : ℚ := (natOfDigits (ids ++ fds) : ℚ)
          let q : ℚ := m * pow10Z (e - (fds.length : Int))
          some (.finite (if neg then -q else q))

/-- Python `float(s)` for a string argument: optional whitespace and sign,
then `inf`/`infinity`/`nan` (case-insensitive) or a decimal literal with
optional fractional part and exponent.  Finite results are kept as exact
rationals (CPython rounds to the nearest IEEE double; no verified claim
depends on the rounded value). -/
def pyFloatParse (s : String) : Option PyFloat :=
  let cs := (pyStrStrip s).toList
  let sc := parseSign cs
  let low := pyLower ⟨sc.2⟩
  if low == "inf" || low == "infinity" then some (.infinite sc.1)
  else if low == "nan" then some .nan
  else
    let se := splitOnExpChar sc.2
    let sd := splitOnDot se.1
    match sd.2 with
    | none =>
        match parseUDigits sd.1 with
        | none => none
        | some ds => mkFloatVal sc.1 ds [] se.2
    | some fracCs =>
        match parseUDigitsOpt sd.1, parseUDigitsOpt fracCs with
        | some ids, some fds =>
            if ids.isEmpty && fds.isEmpty then none else mkFloatVal sc.1 ids fds se.2
        | _, _ => none

/-- Truncation toward zero, as Python `int()` applied to a finite float. -/
def ratTrunc (q : ℚ) : Int :=
  if q < 0 then -((-q).floor) else q.floor

/-- Python `int(x)` on an arbitrary value, as invoked by the `Type::Int`
mapper of `handle_param_typing`: ints pass through, bools become 0/1,
finite floats truncate, strings parse (ValueError when unparseable), and
everything else is a TypeError. -/
def pyIntOfValue : Value → Except String Int
  | .int n => .ok n
  | .bool b => .ok (if b then 1 else 0)
  | .float f =>
      match f with
      | .finite q => .ok (ratTrunc q)
      | .infinite _ => .error "OverflowError: cannot convert float infinity to integer"
      | .nan => .error "ValueError: cannot convert float NaN to integer"
  | .str s =>
      match pyIntParse s with
      | some n => .ok n
      | none => .error ("ValueError: invalid literal for int() with base 10: " ++ s)
  | _ => .error "TypeError: int() argument must be a string or a number"

/-- Python `float(x)` on an arbitrary value, as invoked by the
`Type::Float` mapper of `handle_param_typing`. -/
def pyFloatOfValue : Value → Except String PyFloat
  | .float f => .ok f
  | .int n => .ok (.finite (n : ℚ))
  | .bool b => .ok (.finite (if b then 1 else 0))
  | .str s =>
      match pyFloatParse s with
      | some f => .ok f
      | none => .error ("ValueError: could not convert string to float: " ++ s)
  | _ => .error "TypeError: float() argument must be a string or a number"

/-- The `Type::Bool` mapper body: `v['Type::Bool'].lower() in ('true', '1')`.
Only strings have `.lower`; any other tagged value raises AttributeError. -/
def pyBoolOfTagValue : Value → Except String Bool
  | .str s => .ok (pyLower s == "true" || pyLower s == "1")
  | _ => .error "AttributeError: tagged value has no attribute lower"

/-- Membership of a key in `TYPE_MAPPERS` of `handle_param_typing`. -/
def isTypeTag (k : String) : Bool :=
  k == "Type::Int" || k == "Type::Float" || k == "Type::Bool"

/-- `next(k for k in parameter if k in TYPE_MAPPERS)`: the first key of the
dict, in insertion order, that is a recognized type tag. -/
def findTypeTag : EntryList → Option String
  | .nil => none
  | .cons k _ rest => if isTypeTag k then some k else findTypeTag rest

/-- `TYPE_MAPPERS[tag](parameter)`: look the tagged value up in the dict and
apply the tag's cast. `findTypeTag` only ever produces the three tags, so the
trailing branch is the `Type::Bool` cast. -/
def applyTypeMapper (tag : String) (kvs : EntryList) : Except String Value :=
  match lookupKey kvs tag with
  | none => .error ("KeyError: " ++ tag)
  | some v =>
      if tag == "Type::Int" then (pyIntOfValue v).map Value.int
      else if tag == "Type::Float" then (pyFloatOfValue v).map Value.float
      else (pyBoolOfTagValue v).map Value.bool

mutual
/-- `handle_param_typing` of src/botohook/lambda_function.py: recursively
walk the parameter tree; a dict containing a recognized type-tag key is
replaced wholesale by the first matching tag's cast of its tagged value;
other dicts and lists are traversed, everything else passes through.
Python exceptions raised by the casts surface as `.error`. -/
def handle_param_typing : Value → Except String Value
  | .dict kvs =>
      match findTypeTag kvs with
      | some tag => applyTypeMapper tag kvs
      | none =>
          match coerceEntries kvs with
          | .error e => .error e
          | .ok kvs' => .ok (.dict kvs')
  | .list xs =>
      match coerceValueList xs with
      | .error e => .error e
      | .ok xs' => .ok (.list xs')
  | v => .ok v

/-- The dict comprehension `{k: handle_param_typing(v) for k, v in parameter.items()}`:
values coerced in insertion order, first exception propagating. -/
def coerceEntries : EntryList → Except String EntryList
  | .nil => .ok .nil
  | .cons k v rest =>
      match handle_param_typing v with
      | .error e => .error e
      | .ok v' =>
          match coerceEntries rest with
          | .error e => .error e
          | .ok rest' => .ok (.cons k v' rest')

/-- The list comprehension `[handle_param_typing(v) for v in parameter]`. -/
def coerceValueList : ValueList → Except String ValueList
  | .nil => .ok .nil
  | .cons v rest =>
      match handle_param_typing v with
      | .error e => .error e
      | .ok v' =>
          match coerceValueList rest with
          | .error e => .error e
          | .ok rest' => .ok (.cons v' rest')
end

/-- Concatenation of entry lists. -/
def entryAppend : EntryList → EntryList → EntryList
  | .nil, ys => ys
  | .cons k v rest, ys => .cons k v (entryAppend rest ys)

/-- Key joining of `FlatterDict(..., delimiter='.')`: a nested key is the
parent key, a dot, and the child key; top-level keys have no parent. -/
def joinKey : Option String → String → String
  | none, k => k
  | some pre, k => pre ++ "." ++ k

mutual
/-- Entry part of `dict(FlatterDict(..., delimiter='.'))`: each entry of a
nested dict is flattened under its joined key. -/
def flattenEntries (pre : Option String) : EntryList → EntryList
  | .nil => .nil
  | .cons k v rest =>
      entryAppend (flattenValueAt (joinKey pre k) v) (flattenEntries pre rest)

/-- Flatten one value under the given full key: dicts and lists recurse
(lists use the element index as a path segment, as `FlatterDict` does),
scalars land at the key itself.  Empty nested dicts and lists contribute no
keys, matching `FlatterDict` iteration. -/
def flattenValueAt (key : String) : Value → EntryList
  | .dict kvs => flattenEntries (some key) kvs
  | .list xs => flattenListAt key 0 xs
  | v => .cons key v .nil

/-- List part of the flattening, numbering elements from `i`. -/
def flattenListAt (key : String) (i : Nat) : ValueList → EntryList
  | .nil => .nil
  | .cons v rest =>
      entryAppend (flattenValueAt (key ++ "." ++ toString i) v) (flattenListAt key (i + 1) rest)
end

/-- Zero-padded two-digit field of `strftime`. -/
def pad2 (n : Nat) : String :=
  if n < 10 then "0" ++ toString n else toString n

/-- Zero-padded four-digit year field of `strftime`. -/
def pad4 (n : Nat) : String :=
  if n < 10 then "000" ++ toString n
  else if n < 100 then "00" ++ toString n
  else if n < 1000 then "0" ++ toString n
  else toString n

/-- `v.strftime('%Y-%m-%dT%H:%M:%S')`. -/
def pyStrftimeIso (year month day hour minute second : Nat) : String :=
  pad4 year ++ "-" ++ pad2 month ++ "-" ++ pad2 day ++ "T" ++
    pad2 hour ++ ":" ++ pad2 minute ++ ":" ++ pad2 second

/-- The per-value body of the comprehension at lines 127-132 of
src/botohook/lambda_function.py: datetimes/dates are serialized to the fixed
string format, every other value passes through. -/
def serializeDatetime : Value → Value
  | .datetime y mo d h mi s => .str (pyStrftimeIso y mo d h mi s)
  | v => v

/-- Apply `serializeDatetime` to every value of a flattened dict. -/
def serializeEntries : EntryList → EntryList
  | .nil => .nil
  | .cons k v rest => .cons k (serializeDatetime v) (serializeEntries rest)

/-- Construction of `cfn_resource.Data`: wrap a non-dict invocation result
under `Result`, flatten with dotted keys, then serialize datetimes. -/
def buildData (res : Value) : EntryList :=
  serializeEntries (flattenEntries none
    (match res with
     | .dict kvs => kvs
     | v => .cons "Result" v .nil))

/-- Lowercase hexadecimal digit. -/
def hexDigit (n : Nat) : Char :=
  if n < 10 then Char.ofNat (48 + n) else Char.ofNat (87 + n)

/-- A `\uXXXX` escape for a 16-bit code unit. -/
def uEscape (n : Nat) : String :=
  "\\u" ++ String.mk
    [hexDigit (n / 4096 % 16), hexDigit (n / 256 % 16), hexDigit (n / 16 % 16), hexDigit (n % 16)]

/-- `json.dumps` escaping of one character (default `ensure_ascii=True`):
printable ASCII passes through, the JSON two-character escapes are used
where they exist, every other character becomes `\uXXXX` (a surrogate pair
beyond the BMP). -/
def jsonEscapeChar (c : Char) : String :=
  if c == '"' then "\\\""
  else if c == '\\' then "\\\\"
  else if c == '\n' then "\\n"
  else if c == '\t' then "\\t"
  else if c == '\r' then "\\r"
  else if c.toNat == 8 then "\\b"
  else if c.toNat == 12 then "\\f"
  else if c.toNat < 32 then uEscape c.toNat
  else if c.toNat < 127 then String.mk [c]
  else if c.toNat < 65536 then uEscape c.toNat
  else
    uEscape (55296 + (c.toNat - 65536) / 1024) ++ uEscape (56320 + (c.toNat - 65536) % 1024)

/-- Escape every character of a string body. -/
def jsonEscapeList : List Char → String
  | [] => ""
  | c :: rest => jsonEscapeChar c ++ jsonEscapeList rest

/-- A JSON string literal for `s`. -/
def jsonQuote (s : String) : String :=
  "\"" ++ jsonEscapeList s.toList ++ "\""

/-- Smallest exponent `k ≤ 40` with `den ∣ 10^k`, if any. Every IEEE double
has such a `k` (its denominator is a power of two). -/
def decExponent (den : Nat) : Nat → Option Nat
  | 0 => if 10 ^ (0 : Nat) % den == 0 then some 0 else none
  | k + 1 =>
      match decExponent den k with
      | some r => some r
      | none => if 10 ^ (k + 1) % den == 0 then some (k + 1) else none

/-- Left-pad a digit string with zeros to the given length. -/
def padZeros (s : String) (len : Nat) : String :=
  if s.length < len then String.mk (List.replicate (len - s.length) '0') ++ s else s

/-- Rendering of a Python float by `repr`, as used by `json.dumps`:
`Infinity`/`-Infinity`/`NaN` for the non-finite values (json allows them by
default); finite values are printed in plain decimal when the denominator
divides a power of ten (true of every value actually produced by CPython
floats), with `n.0` for integral values.  CPython prints the shortest
round-tripping decimal of the nearest IEEE double; no verified claim
depends on this rendering. -/
def floatRepr : PyFloat → String
  | .infinite neg => if neg then "-Infinity" else "Infinity"
  | .nan => "NaN"
  | .finite q =>
      let sign := if q < 0 then "-" else ""
      let n := q.num.natAbs
      let d := q.den
      match decExponent d 40 with
      | some k =>
          let scaled := n * (10 ^ k / d)
          let ip := scaled / 10 ^ k
          let fp := scaled % 10 ^ k
          if k == 0 then sign ++ toString ip ++ ".0"
          else
            let fs := padZeros (toString fp) k
            let fs := String.mk (fs.toList.reverse.dropWhile (fun c => c == '0')).reverse
            let fs := if fs == "" then "0" else fs
            sign ++ toString ip ++ "." ++ fs
      | none => sign ++ toString n ++ "/" ++ toString d

mutual
/-- `json.dumps(value)` with the default options (separators `', '` and
`': '`, `ensure_ascii=True`, `allow_nan=True`): datetimes are not JSON
serializable and raise TypeError. -/
def pyJsonDumps : Value → Except String String
  | .null => .ok "null"
  | .bool b => .ok (if b then "true" else "false")
  | .int n => .ok (toString n)
  | .float f => .ok (floatRepr f)
  | .str s => .ok (jsonQuote s)
  | .datetime .. => .error "TypeError: Object of type datetime is not JSON serializable"
  | .list xs =>
      match dumpsValueList xs with
      | .error e => .error e
      | .ok body => .ok ("[" ++ body ++ "]")
  | .dict kvs =>
      match dumpsEntryList kvs with
      | .error e => .error e
      | .ok body => .ok ("\x7b" ++ body ++ "\x7d")

/-- Comma-separated dump of list elements. -/
def dumpsValueList : ValueList → Except String String
  | .nil => .ok ""
  | .cons v rest =>
      match pyJsonDumps v, rest with
      | .error e, _ => .error e
      | .ok s, .nil => .ok s
      | .ok s, r =>
          match dumpsValueList r with
          | .error e => .error e
          | .ok t => .ok (s ++ ", " ++ t)

/-- Comma-separated dump of dict entries. -/
def dumpsEntryList : EntryList → Except String String
  | .nil => .ok ""
  | .cons k v rest =>
      match pyJsonDumps v, rest with
      | .error e, _ => .error e
      | .ok s, .nil => .ok (jsonQuote k ++ ": " ++ s)
      | .ok s, r =>
          match dumpsEntryList r with
          | .error e => .error e
          | .ok t => .ok (jsonQuote k ++ ": " ++ s ++ ", " ++ t)
end

/-- The external capabilities consumed by the Action Bridge, abstracted as
the spec's dynamic-invocation surface: service-name resolution
(`boto3.client`), operation lookup (`hasattr`/`MethodType` probing), the
remote call itself, the JMESPath evaluator (`jmespath.search`), and
crhelper's physical-id generator (`cfn_resource.generate_physical_id`). -/
structure BridgeEnv where
  knownService : String → Bool
  hasMethod : String → String → Bool
  invoke : String → String → EntryList → Except String Value
  search : String → Value → Value
  generatedPhysicalId : String

/-- The normalized outcome of one bridge invocation: the optional physical
resource id returned to crhelper, and the flattened attribute set stored in
`cfn_resource.Data`. -/
structure BridgeOutcome where
  physicalId : Option String
  data : EntryList

/-- Lines 97-101 of src/botohook/lambda_function.py: the effective request
kind.  The request kind that names a key of `ResourceProperties` stands;
otherwise an `Update` falls back to `Create` when a `Create` hook is
declared; otherwise there is no hook.  A non-string `RequestType` is never a
dict key and is not the string `'Update'`, so it resolves to no hook. -/
def resolveRequestType (rtv : Value) (props : EntryList) : Option String :=
  match rtv with
  | .str s =>
      if containsKey props s then some s
      else if s == "Update" && containsKey props "Create" then some "Create"
      else none
  | _ => none

/-- The message of the ValueError raised at lines 142-144 of
src/botohook/lambda_function.py when the JMESPath query yields nothing.
("anyresult" reproduces the source's missing space between two adjacent
string literals.) -/
def remediationTail : String :=
  "Said resource will not be roll-backed and must be deleted manually."

/-- The full identity-extraction failure message, `%`-formatted with the
lowercased effective request kind. -/
def remediationMessage (rt : String) : String :=
  "The resource was successfully " ++ pyLower rt ++
    "d, but the JMESPath expression did not return anyresult. " ++ remediationTail

/-- The ValueError message of lines 119-120 for a missing client method. -/
def methodMissingMessage (c m : String) : String :=
  "Boto client method '" ++ c ++ "." ++ m ++ "' does not exist."

/-- Lines 135-149: identity resolution after the call.  Only for effective
kind Create or Update, and only when `PhysicalResourceId` is present and
truthy, is the JMESPath query evaluated against the raw result; a falsy
query result raises the remediation ValueError, a string result is the
identity, and any other result is identified by its JSON serialization.
The identity is stored in the data under `Ref` and returned. -/
def handleOutcome (env : BridgeEnv) (rt : String) (hookKvs : EntryList)
    (data : EntryList) (botoRes : Value) : Except String BridgeOutcome :=
  if rt == "Create" || rt == "Update" then
    let exprv :=
      match lookupKey hookKvs "PhysicalResourceId" with
      | some e => e
      | none => Value.null
    if pyTruthy exprv then
      match exprv with
      | .str expr =>
          let pid := env.search expr botoRes
          if pyTruthy pid = false then .error (remediationMessage rt)
          else
            match pid with
            | .str s => .ok ⟨some s, pyDictSet data "Ref" (.str s)⟩
            | v =>
                match pyJsonDumps v with
                | .error e => .error e
                | .ok s => .ok ⟨some s, pyDictSet data "Ref" (.str s)⟩
      | _ => .error "JMESPathTypeError: expression must be a string"
    else .ok ⟨none, data⟩
  else .ok ⟨none, data⟩

/-- Lines 116-132: read `Parameters` (default empty dict), resolve the boto
client and check the method exists, coerce the parameters, perform the call
(any rejection propagates verbatim), and flatten the response into the data
set; then resolve the identity. -/
def handleInvoke (env : BridgeEnv) (rt : String) (hookKvs : EntryList)
    (clientName methodName : String) : Except String BridgeOutcome :=
  let params :=
    match lookupKey hookKvs "Parameters" with
    | some p => p
    | none => Value.dict .nil
  if env.knownService clientName = false then
    .error ("UnknownServiceError: Unknown service: " ++ clientName)
  else if env.hasMethod clientName methodName = false then
    .error (methodMissingMessage clientName methodName)
  else
    match handle_param_typing params with
    | .error e => .error e
    | .ok coerced =>
        match coerced with
        | .dict kwargs =>
            match env.invoke clientName methodName kwargs with
            | .error e => .error e
            | .ok botoRes => handleOutcome env rt hookKvs (buildData botoRes) botoRes
        | _ => .error "TypeError: argument after ** must be a mapping"

/-- Lines 113-115: read `Client` and `Method` from the selected hook
properties; subscripting a non-dict hook raises, and non-string names make
`boto3.client`/`hasattr` raise. -/
def handleHook (env : BridgeEnv) (rt : String) (hookKvs : EntryList) :
    Except String BridgeOutcome :=
  match lookupKey hookKvs "Client" with
  | none => .error "KeyError: Client"
  | some clientv =>
      match clientv with
      | .str clientName =>
          match lookupKey hookKvs "Method" with
          | none => .error "KeyError: Method"
          | some (.str methodName) => handleInvoke env rt hookKvs clientName methodName
          | some _ => .error "TypeError: attribute name must be string"
      | _ => .error "ValueError: boto3 client name must be a string"

/-- Lines 97-113: resolve the effective kind; with no hook, an original
`Update` answers with a freshly generated physical id (forcing replacement),
any other original kind answers success with no id and no data; with a hook,
select its properties. -/
def handleResolved (env : BridgeEnv) (rtv : Value) (props : EntryList) :
    Except String BridgeOutcome :=
  match resolveRequestType rtv props with
  | none =>
      if rtv == Value.str "Update" then .ok ⟨some env.generatedPhysicalId, .nil⟩
      else .ok ⟨none, .nil⟩
  | some rt =>
      match lookupKey props rt with
      | none => .error ("KeyError: " ++ rt)
      | some hookv =>
          match hookv with
          | .dict hookKvs => handleHook env rt hookKvs
          | _ => .error "TypeError: hook properties value is not a mapping"

/-- `handle_custom_resource_request` of src/botohook/lambda_function.py,
with the external capabilities supplied by a `BridgeEnv`.  The event must
carry `RequestType` and `ResourceProperties` (in that evaluation order), and
`ResourceProperties` must be a mapping for the membership tests of the kind
resolution. -/
def handle_custom_resource_request (env : BridgeEnv) (event : Value) :
    Except String BridgeOutcome :=
  match pyDictGet event "RequestType" with
  | .error e => .error e
  | .ok rtv =>
      match pyDictGet event "ResourceProperties" with
      | .error e => .error e
      | .ok rpv =>
          match rpv with
          | .dict props => handleResolved env rtv props
          | _ => .error "TypeError: ResourceProperties does not support membership testing"

/-- The per-invocation configuration of the Rewriter, read from the
environment variables RESOURCE_TYPE_PREFIX and
RESOURCE_TYPE_SERVICE_TOKENS. -/
structure TransformConfig where
  typePfx : String
  serviceTokens : List (String × String)

/-- Lookup in the type-suffix → service-token mapping. -/
def lookupToken (ts : List (String × String)) (k : String) : Option String :=
  match ts with
  | [] => none
  | (k', v) :: rest => if k' == k then some v else lookupToken rest k

/-- Python `s.lstrip(chars)`: drop leading characters drawn from the
character SET of `chars` — a character-class trim, not removal of `chars`
as a literal leading substring. -/
def pyLstrip (s chars : String) : String :=
  String.mk (s.toList.dropWhile (fun c => chars.toList.contains c))

/-- Python `s.startswith(p)`. -/
def pyStartsWith (s p : String) : Bool :=
  p.toList.isPrefixOf s.toList

/-- Removal of a literal leading substring, the stripping the spec mandates
(modelled from the spec's words, for comparison with the source's
`pyLstrip`): meaningful when `pyStartsWith s p` holds. -/
def dropLiteralPfx (s p : String) : String :=
  String.mk (s.toList.drop p.toList.length)

/-- The delegate resource type substituted by the Rewriter. -/
def delegateResourceType : String := "AWS::CloudFormation::CustomResource"

/-- Substring test on character lists (Python `needle in haystack` for
strings). -/
def charListInfix (needle hay : List Char) : Bool :=
  match hay with
  | [] => needle.isEmpty
  | _ :: rest => needle.isPrefixOf hay || charListInfix needle rest

/-- Membership of a value in a value list (Python `x in list`). -/
def valueListContains : ValueList → Value → Bool
  | .nil, _ => false
  | .cons v rest, x => beqValue v x || valueListContains rest x

/-- The per-entry transformation of `replace_fragment_resources`
(src/transform/lambda_function.py lines 41-52): when the entry has a `Type`
that starts with the configured prefix and whose `lstrip` remainder is a
key of the token map, rebuild the entry with the delegate type and a
properties dict putting `ServiceToken` first and spreading the original
`Properties` after it (`**resource_def.get('Properties')`, which raises a
TypeError when `Properties` is absent or not a mapping); every other entry
passes through unchanged. -/
def rewriteEntry (cfg : TransformConfig) (rdef : Value) : Except String Value :=
  match rdef with
  | .dict kvs =>
      match lookupKey kvs "Type" with
      | none => .ok (.dict kvs)
      | some tv =>
          match tv with
          | .str t =>
              if pyStartsWith t cfg.typePfx then
                match lookupToken cfg.serviceTokens (pyLstrip t cfg.typePfx) with
                | some token =>
                    match lookupKey kvs "Properties" with
                    | some (.dict pkvs) =>
                        .ok (.dict (pyDictSet
                          (pyDictSet kvs "Type" (.str delegateResourceType))
                          "Properties"
                          (.dict (pySpreadInto (.cons "ServiceToken" (.str token) .nil) pkvs))))
                    | some _ => .error "TypeError: argument after ** must be a mapping"
                    | none => .error "TypeError: 'NoneType' object is not a mapping"
                | none => .ok (.dict kvs)
              else .ok (.dict kvs)
          | _ => .error "AttributeError: value has no attribute startswith"
  | .str s =>
      if charListInfix "Type".toList s.toList then
        .error "TypeError: string indices must be integers"
      else .ok (.str s)
  | .list xs =>
      if valueListContains xs (.str "Type") then
        .error "TypeError: list indices must be integers or slices, not str"
      else .ok (.list xs)
  | _ => .error "TypeError: argument of type is not iterable"

/-- `replace_fragment_resources`: the dict comprehension over the resources
section, preserving resource-id order, the first raised exception
propagating. -/
def replace_fragment_resources (cfg : TransformConfig) : EntryList → Except String EntryList
  | .nil => .ok .nil
  | .cons rid rdef rest =>
      match rewriteEntry cfg rdef with
      | .error e => .error e
      | .ok rdef' =>
          match replace_fragment_resources cfg rest with
          | .error e => .error e
          | .ok rest' => .ok (.cons rid rdef' rest')

mutual
/-- Characterization of the coercion's failure modes, used by the amended
claim C2: a value is well formed when every typed envelope reached by the
coercion walk carries a payload its tag's cast accepts (parseable `Type::Int`
/ `Type::Float` string, string-valued `Type::Bool`). -/
def wellFormedParams : Value → Bool
  | .dict kvs =>
      match findTypeTag kvs with
      | some tag => (applyTypeMapper tag kvs).isOk
      | none => wellFormedEntries kvs
  | .list xs => wellFormedValueList xs
  | _ => true

/-- All values of a dict are well formed. -/
def wellFormedEntries : EntryList → Bool
  | .nil => true
  | .cons _ v rest => wellFormedParams v && wellFormedEntries rest

/-- All elements of a list are well formed. -/
def wellFormedValueList : ValueList → Bool
  | .nil => true
  | .cons v rest => wellFormedParams v && wellFormedValueList rest
end

/-- Discriminator for mapping values (`isinstance(x, dict)`). -/
def isDictValue : Value → Bool
  | .dict _ => true
  | _ => false

/-- The Rewriter configuration of the repository's own unit test:
prefix `MyCustom::`, one token for suffix `TypeA`. -/
def cfgTypeA : TransformConfig :=
  ⟨"MyCustom::", [("TypeA", "arn:aws:lambda:us-east-1:123456789012:function:my-function-a")]⟩

/-- A Rewriter configuration whose declared suffix `Mystery` begins with
characters drawn from the prefix's character set. -/
def cfgMystery : TransformConfig :=
  ⟨"MyCustom::", [("Mystery", "arn:aws:lambda:us-east-1:123456789012:function:my-function-m")]⟩

/-- A resource entry of declared type `MyCustom::Mystery` with one
property. -/
def entryMystery : Value :=
  .dict (.cons "Type" (.str "MyCustom::Mystery")
    (.cons "Properties" (.dict (.cons "Property1" (.str "Value1") .nil)) .nil))

/-- A bridge environment with no services, no methods, a failing invoker
and an absent-everywhere query evaluator. -/
def envNull : BridgeEnv :=
  ⟨fun _ => false, fun _ _ => false, fun _ _ _ => .error "no invocation",
    fun _ _ => .null, "generated-id"⟩

/-- A Create lifecycle event whose resource properties declare no hook at
all. -/
def eventNoHookCreate : Value :=
  .dict (.cons "RequestType" (.str "Create")
    (.cons "ResourceProperties" (.dict .nil) .nil))

/-- A Create lifecycle event whose resource properties declare only a
Delete hook, so kind resolution yields no hook. -/
def eventCreateOnlyDelete : Value :=
  .dict (.cons "RequestType" (.str "Create")
    (.cons "ResourceProperties" (.dict (.cons "Delete" (.dict .nil) .nil)) .nil))

/-- A bridge environment whose invoker succeeds with `{"Location": "/x"}`
and whose query evaluator resolves nothing (spec §8, scenario C). -/
def envC5 : BridgeEnv :=
  ⟨fun _ => true, fun _ _ => true,
    fun _ _ _ => .ok (.dict (.cons "Location" (.str "/x") .nil)),
    fun _ _ => .null, "generated-id"⟩

/-- The Create hook of scenario C: client, method and a
`PhysicalResourceId` query that will resolve to nothing. -/
def hookC5 : EntryList :=
  .cons "Client" (.str "s3")
    (.cons "Method" (.str "create_bucket")
      (.cons "PhysicalResourceId" (.str "Nope") .nil))

/-- The Create lifecycle event of scenario C. -/
def eventC5 : Value :=
  .dict (.cons "RequestType" (.str "Create")
    (.cons "ResourceProperties" (.dict (.cons "Create" (.dict hookC5) .nil)) .nil))

mutual
/-- The coercion succeeds exactly on well-formed values. -/
theorem hpt_isOk_eq_wellFormed : ∀ v : Value, (handle_param_typing v).isOk = wellFormedParams v
  | .null => rfl
  | .bool _ => rfl
  | .int _ => rfl
  | .float _ => rfl
  | .str _ => rfl
  | .datetime _ _ _ _ _ _ => rfl
  | .list xs => by
      simp only [handle_param_typing, wellFormedParams]
      rw [← coerceValueList_isOk_eq_wellFormed xs]
      cases coerceValueList xs <;> rfl
  | .dict kvs => by
      simp only [handle_param_typing, wellFormedParams]
      cases htag : findTypeTag kvs with
      | some tag => cases applyTypeMapper tag kvs <;> rfl
      | none =>
          rw [← coerceEntries_isOk_eq_wellFormed kvs]
          cases coerceEntries kvs <;> rfl

/-- Entrywise version of `hpt_isOk_eq_wellFormed`. -/
theorem coerceEntries_isOk_eq_wellFormed :
    ∀ kvs : EntryList, (coerceEntries kvs).isOk = wellFormedEntries kvs
  | .nil => rfl
  | .cons k v rest => by
      simp only [coerceEntries, wellFormedEntries]
      rw [← hpt_isOk_eq_wellFormed v, ← coerceEntries_isOk_eq_wellFormed rest]
      cases handle_param_typing v <;> cases coerceEntries rest <;> rfl

/-- Elementwise version of `hpt_isOk_eq_wellFormed`. -/
theorem coerceValueList_isOk_eq_wellFormed :
    ∀ xs : ValueList, (coerceValueList xs).isOk = wellFormedValueList xs
  | .nil => rfl
  | .cons v rest => by
      simp only [coerceValueList, wellFormedValueList]
      rw [← hpt_isOk_eq_wellFormed v, ← coerceValueList_isOk_eq_wellFormed rest]
      cases handle_param_typing v <;> cases coerceValueList rest <;> rfl
end

/-- A successful type-mapper application yields a scalar, which the
coercion maps to itself. -/
theorem applyTypeMapper_ok (tag : String) (kvs : EntryList) (y : Value)
    (h : applyTypeMapper tag kvs = .ok y) : handle_param_typing y = .ok y := by
  unfold applyTypeMapper at h
  cases hl : lookupKey kvs tag with
  | none => rw [hl] at h; exact absurd h (by simp)
  | some v =>
      rw [hl] at h
      dsimp only at h
      by_cases h1 : (tag == "Type::Int") = true
      · rw [if_pos h1] at h
        cases hv : pyIntOfValue v with
        | error e => rw [hv] at h; exact absurd h (by simp [Except.map])
        | ok n =>
            rw [hv] at h
            simp only [Except.map] at h
            injection h with h2
            subst h2
            rfl
      · rw [if_neg h1] at h
        by_cases h2 : (tag == "Type::Float") = true
        · rw [if_pos h2] at h
          cases hv : pyFloatOfValue v with
          | error e => rw [hv] at h; exact absurd h (by simp [Except.map])
          | ok f =>
              rw [hv] at h
              simp only [Except.map] at h
              injection h with h3
              subst h3
              rfl
        · rw [if_neg h2] at h
          cases hv : pyBoolOfTagValue v with
          | error e => rw [hv] at h; exact absurd h (by simp [Except.map])
          | ok b =>
              rw [hv] at h
              simp only [Except.map] at h
              injection h with h3
              subst h3
              rfl

/-- A coerced dict has the same keys as its source, hence the same first
type tag. -/
theorem coerceEntries_findTypeTag :
    ∀ (kvs kvs' : EntryList), coerceEntries kvs = .ok kvs' → findTypeTag kvs' = findTypeTag kvs
  | .nil, kvs', h => by injection h with h2; subst h2; rfl
  | .cons k v rest, kvs', h => by
      simp only [coerceEntries] at h
      cases hv : handle_param_typing v with
      | error e => rw [hv] at h; exact absurd h (by simp)
      | ok v' =>
          rw [hv] at h
          cases hr : coerceEntries rest with
          | error e => rw [hr] at h; exact absurd h (by simp)
          | ok rest' =>
              rw [hr] at h
              injection h with h2
              subst h2
              simp only [findTypeTag]
              rw [coerceEntries_findTypeTag rest rest' hr]

mutual
/-- Idempotence of the coercion on its domain of definition. -/
theorem hpt_idem : ∀ (v y : Value), handle_param_typing v = .ok y → handle_param_typing y = .ok y
  | .null, y, h => by injection h with h2; subst h2; rfl
  | .bool _, y, h => by injection h with h2; subst h2; rfl
  | .int _, y, h => by injection h with h2; subst h2; rfl
  | .float _, y, h => by injection h with h2; subst h2; rfl
  | .str _, y, h => by injection h with h2; subst h2; rfl
  | .datetime _ _ _ _ _ _, y, h => by injection h with h2; subst h2; rfl
  | .list xs, y, h => by
      simp only [handle_param_typing] at h
      cases hc : coerceValueList xs with
      | error e => rw [hc] at h; exact absurd h (by simp)
      | ok xs' =>
          rw [hc] at h
          injection h with h2
          subst h2
          simp only [handle_param_typing]
          rw [coerceValueList_idem xs xs' hc]
  | .dict kvs, y, h => by
      simp only [handle_param_typing] at h
      cases htag : findTypeTag kvs with
      | some tag =>
          rw [htag] at h
          exact applyTypeMapper_ok tag kvs y h
      | none =>
          rw [htag] at h
          cases hc : coerceEntries kvs with
          | error e => rw [hc] at h; exact absurd h (by simp)
          | ok kvs' =>
              rw [hc] at h
              injection h with h2
              subst h2
              simp only [handle_param_typing]
              rw [coerceEntries_findTypeTag kvs kvs' hc, htag, coerceEntries_idem kvs kvs' hc]

/-- Entrywise idempotence. -/
theorem coerceEntries_idem :
    ∀ (kvs kvs' : EntryList), coerceEntries kvs = .ok kvs' → coerceEntries kvs' = .ok kvs'
  | .nil, kvs', h => by injection h with h2; subst h2; rfl
  | .cons k v rest, kvs', h => by
      simp only [coerceEntries] at h
      cases hv : handle_param_typing v with
      | error e => rw [hv] at h; exact absurd h (by simp)
      | ok v' =>
          rw [hv] at h
          cases hr : coerceEntries rest with
          | error e => rw [hr] at h; exact absurd h (by simp)
          | ok rest' =>
              rw [hr] at h
              injection h with h2
              subst h2
              simp only [coerceEntries]
              rw [hpt_idem v v' hv, coerceEntries_idem rest rest' hr]

/-- Elementwise idempotence. -/
theorem coerceValueList_idem :
    ∀ (xs xs' : ValueList), coerceValueList xs = .ok xs' → coerceValueList xs' = .ok xs'
  | .nil, xs', h => by injection h with h2; subst h2; rfl
  | .cons v rest, xs', h => by
      simp only [coerceValueList] at h
      cases hv : handle_param_typing v with
      | error e => rw [hv] at h; exact absurd h (by simp)
      | ok v' =>
          rw [hv] at h
          cases hr : coerceValueList rest with
          | error e => rw [hr] at h; exact absurd h (by simp)
          | ok rest' =>
              rw [hr] at h
              injection h with h2
              subst h2
              simp only [coerceValueList]
              rw [hpt_idem v v' hv, coerceValueList_idem rest rest' hr]
end

/-- Claim C2 (counterexample): parameter coercion is not a total function —
the typed envelope whose `Type::Int` tagged string `"x"` is not parseable
as an integer makes `handle_param_typing` raise a ValueError (Python
`int('x')`), so coercion has a failure mode. -/
theorem claim_C2_counterexample :
    handle_param_typing (.dict (.cons "Type::Int" (.str "x") .nil)) =
      .error "ValueError: invalid literal for int() with base 10: x" := rfl

/-- Claim C2 (amended): parameter coercion succeeds exactly on inputs whose
typed envelopes are all well formed — for every input value, coercion
returns a value iff every typed envelope reached by the walk has a payload
its tag's cast accepts; on any other input it raises. -/
theorem claim_C2_amended :
    ∀ v : Value, (handle_param_typing v).isOk = wellFormedParams v :=
  hpt_isOk_eq_wellFormed

/-- Claim C6: parameter coercion is idempotent on its domain of definition —
whenever `handle_param_typing x` returns `y`, coercing `y` again returns
`y` unchanged. -/
theorem claim_C6 :
    ∀ (x y : Value), handle_param_typing x = .ok y → handle_param_typing y = .ok y :=
  hpt_idem

/-- Witness for claim C6 at the concrete envelope `{"Type::Int": "42"}`. -/
theorem claim_C6_witness :
    handle_param_typing (.dict (.cons "Type::Int" (.str "42") .nil)) = .ok (.int 42) ∧
    handle_param_typing (.int 42) = .ok (.int 42) :=
  ⟨rfl, claim_C6 (.dict (.cons "Type::Int" (.str "42") .nil)) (.int 42) rfl⟩

/-- Claim C7: coercing `{"Type::Bool": s}` yields true iff the lowercased
string is `"true"` or `"1"`; exhaustively on the spec's examples, `"True"`,
`"TRUE"` and `"1"` yield true while `"false"`, `"0"`, `"yes"` and the empty
string yield false. -/
theorem claim_C7 :
    (∀ s : String,
      handle_param_typing (.dict (.cons "Type::Bool" (.str s) .nil)) =
        .ok (.bool (pyLower s == "true" || pyLower s == "1"))) ∧
    handle_param_typing (.dict (.cons "Type::Bool" (.str "True") .nil)) = .ok (.bool true) ∧
    handle_param_typing (.dict (.cons "Type::Bool" (.str "TRUE") .nil)) = .ok (.bool true) ∧
    handle_param_typing (.dict (.cons "Type::Bool" (.str "1") .nil)) = .ok (.bool true) ∧
    handle_param_typing (.dict (.cons "Type::Bool" (.str "false") .nil)) = .ok (.bool false) ∧
    handle_param_typing (.dict (.cons "Type::Bool" (.str "0") .nil)) = .ok (.bool false) ∧
    handle_param_typing (.dict (.cons "Type::Bool" (.str "yes") .nil)) = .ok (.bool false) ∧
    handle_param_typing (.dict (.cons "Type::Bool" (.str "") .nil)) = .ok (.bool false) :=
  ⟨fun _ => rfl, rfl, rfl, rfl, rfl, rfl, rfl, rfl⟩

/-- Claim C8: the response flattener maps the empty mapping to the empty
mapping, flattens nested mappings into dotted-path keys (the spec's example
`{"a":{"b":{"c":1}}}` becomes `{"a.b.c": 1}`), and treats every non-mapping
value exactly as the wrapped mapping `{"Result": v}`. -/
theorem claim_C8 :
    buildData (.dict .nil) = .nil ∧
    buildData (.dict (.cons "a" (.dict (.cons "b" (.dict (.cons "c" (.int 1) .nil)) .nil)) .nil)) =
      .cons "a.b.c" (.int 1) .nil ∧
    (∀ v : Value, isDictValue v = false →
      buildData v = buildData (.dict (.cons "Result" v .nil))) := by
  refine ⟨rfl, rfl, ?_⟩
  intro v h
  cases v <;> first | rfl | exact absurd h (by simp [isDictValue])

/-- Witness for claim C8's wrapping clause at the scalar `"x"`. -/
theorem claim_C8_witness :
    isDictValue (.str "x") = false ∧
    buildData (.str "x") = buildData (.dict (.cons "Result" (.str "x") .nil)) :=
  ⟨rfl, claim_C8.2.2 (.str "x") rfl⟩

/-- Claim C9: kind resolution — a request kind naming a declared hook key
is the effective kind; an Update with a declared Create hook falls back to
Create; otherwise no hook applies. -/
theorem claim_C9 (rt : String) (props : EntryList) :
    (containsKey props rt = true → resolveRequestType (.str rt) props = some rt) ∧
    (containsKey props rt = false → rt = "Update" → containsKey props "Create" = true →
      resolveRequestType (.str rt) props = some "Create") ∧
    (containsKey props rt = false → ¬(rt = "Update" ∧ containsKey props "Create" = true) →
      resolveRequestType (.str rt) props = none) := by
  refine ⟨?_, ?_, ?_⟩
  · intro h1
    simp [resolveRequestType, h1]
  · intro h1 h2 h3
    subst h2
    simp [resolveRequestType, h1, h3]
  · intro h1 h2
    by_cases h3 : rt = "Update"
    · have h4 : containsKey props "Create" = false := by
        cases h5 : containsKey props "Create"
        · rfl
        · exact absurd ⟨h3, h5⟩ h2
      subst h3
      simp [resolveRequestType, h1, h4]
    · simp [resolveRequestType, h1, h3]

/-- Witness for claim C9: an Update event with only a Create hook resolves
to effective kind Create. -/
theorem claim_C9_witness :
    resolveRequestType (.str "Update") (.cons "Create" (.dict .nil) .nil) = some "Create" :=
  (claim_C9 "Update" (.cons "Create" (.dict .nil) .nil)).2.1 rfl rfl rfl

/-- Setting a key then looking it (or another key) up. -/
theorem lookupKey_pyDictSet :
    ∀ (l : EntryList) (k' : String) (v' : Value) (k : String),
      lookupKey (pyDictSet l k' v') k = if k' == k then some v' else lookupKey l k
  | .nil, k', v', k => by
      simp only [pyDictSet, lookupKey]
  | .cons a b rest, k', v', k => by
      simp only [pyDictSet]
      by_cases h : a = k'
      · subst h
        simp only [beq_self_eq_true, if_true]
        by_cases h2 : a = k <;> simp [lookupKey, h2]
      · have hb : (a == k') = false := beq_eq_false_iff_ne.mpr h
        simp only [hb, Bool.false_eq_true, if_false]
        by_cases h2 : a = k
        · subst h2
          have hk : (k' == a) = false := beq_eq_false_iff_ne.mpr (Ne.symm h)
          simp [lookupKey, hk]
        · simp [lookupKey, h2, lookupKey_pyDictSet rest k' v' k]

/-- Looking up the key just set yields the value just set. -/
theorem lookupKey_pyDictSet_self (l : EntryList) (k : String) (v : Value) :
    lookupKey (pyDictSet l k v) k = some v := by
  rw [lookupKey_pyDictSet]
  simp

/-- Lookup after a dict spread: the last occurrence in the spread source
wins, else the base. -/
theorem lookupKey_pySpreadInto :
    ∀ (src base : EntryList) (k : String),
      lookupKey (pySpreadInto base src) k =
        match lookupLastEntry src k with
        | some v => some v
        | none => lookupKey base k
  | .nil, base, k => by
      simp [pySpreadInto, lookupLastEntry]
  | .cons a b rest, base, k => by
      simp only [pySpreadInto, lookupLastEntry]
      rw [lookupKey_pySpreadInto rest (pyDictSet base a b) k]
      cases hr : lookupLastEntry rest k with
      | some r => rfl
      | none =>
          rw [lookupKey_pyDictSet base a b k]
          by_cases h : a = k
          · subst h
            simp
          · have hb : (a == k) = false := beq_eq_false_iff_ne.mpr h
            simp [hb]

/-- Claim C10: when a matching entry's original `Properties` already
contains a `ServiceToken` key, the rewritten entry's `ServiceToken` is the
original property's value — the original properties are spread after the
configured token and silently override it. (`lookupKey`/`lookupLastEntry`
agreeing states that `ServiceToken` occurs once, as in every genuine Python
dict.) -/
theorem claim_C10 (cfg : TransformConfig) (kvs pkvs : EntryList) (t : String) (v : Value)
    (hT : lookupKey kvs "Type" = some (.str t))
    (hSW : pyStartsWith t cfg.typePfx = true)
    (hTok : (lookupToken cfg.serviceTokens (pyLstrip t cfg.typePfx)).isSome = true)
    (hP : lookupKey kvs "Properties" = some (.dict pkvs))
    (_hST : lookupKey pkvs "ServiceToken" = some v)
    (hSTlast : lookupLastEntry pkvs "ServiceToken" = some v) :
    ∃ out : EntryList, rewriteEntry cfg (.dict kvs) = .ok (.dict out) ∧
      ∃ outProps : EntryList, lookupKey out "Properties" = some (.dict outProps) ∧
        lookupKey outProps "ServiceToken" = some v := by
  obtain ⟨token, htok⟩ := Option.isSome_iff_exists.mp hTok
  refine ⟨pyDictSet (pyDictSet kvs "Type" (.str delegateResourceType)) "Properties"
      (.dict (pySpreadInto (.cons "ServiceToken" (.str token) .nil) pkvs)),
    ?_, pySpreadInto (.cons "ServiceToken" (.str token) .nil) pkvs, ?_, ?_⟩
  · simp only [rewriteEntry, hT, hSW, htok, hP, if_true]
  · exact lookupKey_pyDictSet_self _ _ _
  · rw [lookupKey_pySpreadInto pkvs (.cons "ServiceToken" (.str token) .nil) "ServiceToken",
      hSTlast]

/-- Witness for claim C10 at a concrete matching entry whose properties
carry their own `ServiceToken`. -/
theorem claim_C10_witness :
    ∃ out : EntryList,
      rewriteEntry cfgTypeA (.dict (.cons "Type" (.str "MyCustom::TypeA")
        (.cons "Properties" (.dict (.cons "ServiceToken" (.str "arn:original")
          (.cons "Property1" (.str "Value1") .nil))) .nil))) = .ok (.dict out) ∧
      ∃ outProps : EntryList, lookupKey out "Properties" = some (.dict outProps) ∧
        lookupKey outProps "ServiceToken" = some (.str "arn:original") :=
  claim_C10 cfgTypeA
    (.cons "Type" (.str "MyCustom::TypeA")
      (.cons "Properties" (.dict (.cons "ServiceToken" (.str "arn:original")
        (.cons "Property1" (.str "Value1") .nil))) .nil))
    (.cons "ServiceToken" (.str "arn:original") (.cons "Property1" (.str "Value1") .nil))
    "MyCustom::TypeA" (.str "arn:original") rfl rfl rfl rfl rfl rfl

/-- Claim C3 (code evaluation at the failing input): the entry of type
`MyCustom::Mystery` satisfies the claim's hypothesis — the type starts with
the configured prefix and its literal remainder `Mystery` is a key of the
token map — yet the code's character-class `lstrip` turns the remainder
into `ery`, so the Rewriter leaves the entry unchanged instead of rewriting
it to the delegate type with the configured `ServiceToken`. -/
theorem claim_C3_code_eval :
    pyStartsWith "MyCustom::Mystery" "MyCustom::" = true ∧
    dropLiteralPfx "MyCustom::Mystery" "MyCustom::" = "Mystery" ∧
    lookupToken cfgMystery.serviceTokens "Mystery" =
      some "arn:aws:lambda:us-east-1:123456789012:function:my-function-m" ∧
    pyLstrip "MyCustom::Mystery" "MyCustom::" = "ery" ∧
    replace_fragment_resources cfgMystery (.cons "MyResource" entryMystery .nil) =
      .ok (.cons "MyResource" entryMystery .nil) :=
  ⟨rfl, rfl, rfl, rfl, rfl⟩

/-- Claim C4 (counterexample): a matching entry with an absent `Properties`
field does not pass through — `**resource_def.get('Properties')` spreads
`None` and the Rewriter raises a TypeError. -/
theorem claim_C4_counterexample :
    replace_fragment_resources cfgTypeA
      (.cons "MyResource" (.dict (.cons "Type" (.str "MyCustom::TypeA") .nil)) .nil) =
      .error "TypeError: 'NoneType' object is not a mapping" := rfl

/-- Claim C4 (amended): an entry with no `Type` field passes through
unchanged, and an entry with absent `Properties` passes through unchanged
provided it does not match (its type fails the prefix-and-token condition);
but a matching entry with absent `Properties` makes the Rewriter raise a
TypeError instead of passing through. -/
theorem claim_C4_amended :
    (∀ (cfg : TransformConfig) (kvs : EntryList), containsKey kvs "Type" = false →
        rewriteEntry cfg (.dict kvs) = .ok (.dict kvs)) ∧
    (∀ (cfg : TransformConfig) (kvs : EntryList) (t : String),
        lookupKey kvs "Type" = some (.str t) →
        (pyStartsWith t cfg.typePfx &&
          (lookupToken cfg.serviceTokens (pyLstrip t cfg.typePfx)).isSome) = false →
        rewriteEntry cfg (.dict kvs) = .ok (.dict kvs)) ∧
    (∀ (cfg : TransformConfig) (kvs : EntryList) (t : String),
        lookupKey kvs "Type" = some (.str t) →
        pyStartsWith t cfg.typePfx = true →
        (lookupToken cfg.serviceTokens (pyLstrip t cfg.typePfx)).isSome = true →
        containsKey kvs "Properties" = false →
        rewriteEntry cfg (.dict kvs) = .error "TypeError: 'NoneType' object is not a mapping") := by
  refine ⟨?_, ?_, ?_⟩
  · intro cfg kvs h
    cases hl : lookupKey kvs "Type" with
    | none => simp [rewriteEntry, hl]
    | some tv => rw [containsKey, hl] at h; exact absurd h (by simp)
  · intro cfg kvs t hT h
    cases hsw : pyStartsWith t cfg.typePfx with
    | false => simp [rewriteEntry, hT, hsw]
    | true =>
        rw [hsw, Bool.true_and] at h
        cases htok : lookupToken cfg.serviceTokens (pyLstrip t cfg.typePfx) with
        | none => simp [rewriteEntry, hT, hsw, htok]
        | some token => rw [htok] at h; exact absurd h (by simp)
  · intro cfg kvs t hT hSW hTok hP
    obtain ⟨token, htok⟩ := Option.isSome_iff_exists.mp hTok
    have hPn : lookupKey kvs "Properties" = none := by
      cases hl : lookupKey kvs "Properties" with
      | none => rfl
      | some pv => rw [containsKey, hl] at hP; exact absurd hP (by simp)
    simp [rewriteEntry, hT, hSW, htok, hPn]

/-- Witness for claim C4's three clauses at concrete entries: no type
field, a non-matching type without properties, and a matching type without
properties. -/
theorem claim_C4_witness :
    rewriteEntry cfgTypeA (.dict (.cons "Other" (.int 1) .nil)) =
      .ok (.dict (.cons "Other" (.int 1) .nil)) ∧
    rewriteEntry cfgTypeA (.dict (.cons "Type" (.str "MyCustom::TypeB") .nil)) =
      .ok (.dict (.cons "Type" (.str "MyCustom::TypeB") .nil)) ∧
    rewriteEntry cfgTypeA (.dict (.cons "Type" (.str "MyCustom::TypeA") .nil)) =
      .error "TypeError: 'NoneType' object is not a mapping" :=
  ⟨claim_C4_amended.1 cfgTypeA (.cons "Other" (.int 1) .nil) rfl,
   claim_C4_amended.2.1 cfgTypeA (.cons "Type" (.str "MyCustom::TypeB") .nil)
     "MyCustom::TypeB" rfl rfl,
   claim_C4_amended.2.2 cfgTypeA (.cons "Type" (.str "MyCustom::TypeA") .nil)
     "MyCustom::TypeA" rfl rfl rfl rfl⟩

/-- Claim C1 (counterexample): a Create event whose resource properties
declare no hook is answered with success (`None` physical id, empty data) —
the bridge does not fail the request with a configuration error. -/
theorem claim_C1_counterexample :
    handle_custom_resource_request envNull eventNoHookCreate = .ok ⟨none, .nil⟩ := rfl

/-- Claim C1 (amended): when kind resolution yields no hook for an original
Create request, the bridge does not fail — it returns success with no
physical id and no data, leaving the transport collaborator to default the
physical id (the same handling as the Delete-with-no-hook case). -/
theorem claim_C1_amended (env : BridgeEnv) (event : Value) (props : EntryList)
    (h1 : pyDictGet event "RequestType" = .ok (.str "Create"))
    (h2 : pyDictGet event "ResourceProperties" = .ok (.dict props))
    (h3 : containsKey props "Create" = false) :
    handle_custom_resource_request env event = .ok ⟨none, .nil⟩ := by
  have hres : resolveRequestType (.str "Create") props = none := by
    simp [resolveRequestType, h3]
  simp only [handle_custom_resource_request, h1, h2, handleResolved, hres]
  rfl

/-- Witness for claim C1 at a Create event declaring only a Delete hook. -/
theorem claim_C1_witness :
    handle_custom_resource_request envNull eventCreateOnlyDelete = .ok ⟨none, .nil⟩ :=
  claim_C1_amended envNull eventCreateOnlyDelete (.cons "Delete" (.dict .nil) .nil)
    rfl rfl rfl

/-- Claim C5: for an effective Create/Update kind with a (non-empty)
`PhysicalResourceId` query, when the query evaluates to an absent (falsy)
result against the raw invocation result, the bridge raises the fatal
ValueError whose message states that the resource will not be rolled back
and must be deleted manually. -/
theorem claim_C5 (env : BridgeEnv) (event : Value) (props hookKvs kwargs : EntryList)
    (rtv res : Value) (rt clientName methodName expr : String)
    (h1 : pyDictGet event "RequestType" = .ok rtv)
    (h2 : pyDictGet event "ResourceProperties" = .ok (.dict props))
    (h3 : resolveRequestType rtv props = some rt)
    (h4 : lookupKey props rt = some (.dict hookKvs))
    (h5 : lookupKey hookKvs "Client" = some (.str clientName))
    (h6 : lookupKey hookKvs "Method" = some (.str methodName))
    (h7 : env.knownService clientName = true)
    (h8 : env.hasMethod clientName methodName = true)
    (h9 : handle_param_typing
        (match lookupKey hookKvs "Parameters" with
         | some p => p
         | none => Value.dict .nil) = .ok (.dict kwargs))
    (h10 : env.invoke clientName methodName kwargs = .ok res)
    (h11 : rt = "Create" ∨ rt = "Update")
    (h12 : lookupKey hookKvs "PhysicalResourceId" = some (.str expr))
    (h13 : expr ≠ "")
    (h14 : pyTruthy (env.search expr res) = false) :
    handle_custom_resource_request env event = .error (remediationMessage rt) ∧
    ∃ pre : String, remediationMessage rt = pre ++ remediationTail := by
  constructor
  · have htr : pyTruthy (Value.str expr) = true := by
      simp [pyTruthy, h13]
    rcases h11 with h11 | h11 <;> subst h11 <;>
      simp [handle_custom_resource_request, h1, h2, handleResolved, h3, h4, handleHook,
        h5, h6, handleInvoke, h7, h8, h9, h10, handleOutcome, h12, htr, h14]
  · exact ⟨_, rfl⟩

/-- Witness for claim C5 at scenario C: the query `Nope` resolves to
nothing against `{"Location": "/x"}`. -/
theorem claim_C5_witness :
    handle_custom_resource_request envC5 eventC5 = .error (remediationMessage "Create") ∧
    ∃ pre : String, remediationMessage "Create" = pre ++ remediationTail :=
  claim_C5 envC5 eventC5 (.cons "Create" (.dict hookC5) .nil) hookC5 .nil
    (.str "Create") (.dict (.cons "Location" (.str "/x") .nil))
    "Create" "s3" "create_bucket" "Nope"
    rfl rfl rfl rfl rfl rfl rfl rfl rfl rfl (Or.inl rfl) rfl (by decide) rfl

end CfnBridge
